import Mathlib

/-!
Verification of the MomoXRSS feed-to-Discord forwarder.

The development shallowly embeds the program (server `part_001` and the
Mongoose model `part_000`) in Lean.  JavaScript numbers that can be NaN or
infinite are modelled by `JsNum`; possibly-undefined string fields by
`Option String`.  Host primitives that the program calls but does not
define are passed as parameters: `validUrl` stands for `isValidUrl`
(success of `new URL` with nonempty protocol and hostname) and `pd` for
`s => new Date(s).getTime()` (NaN for malformed input).  Asynchronous
effects are made explicit: the fetched feed, the resolved channel type and
the success of the outbound Discord call are inputs, and each function
returns the produced actions and the new state.
-/

namespace MomoXRSS

/-- A JavaScript number as this program observes it: finite, NaN or an
infinity.  Dates (`getTime`) are NaN or finite; intervals read back from
the store could in principle be anything. -/
inductive JsNum where
  | nan : JsNum
  | posInf : JsNum
  | negInf : JsNum
  | num : Int → JsNum
deriving DecidableEq

/-- JS truthiness of a number: `0` and `NaN` are falsy. -/
def JsNum.truthy : JsNum → Bool
  | .nan => false
  | .posInf => true
  | .negInf => true
  | .num n => n ≠ 0

/-- `Number.isFinite`. -/
def JsNum.isFinite : JsNum → Bool
  | .num _ => true
  | _ => false

/-- JS subtraction `a - b` on numbers. -/
def JsNum.sub : JsNum → JsNum → JsNum
  | .nan, _ => .nan
  | _, .nan => .nan
  | .posInf, .posInf => .nan
  | .posInf, _ => .posInf
  | .negInf, .negInf => .nan
  | .negInf, _ => .negInf
  | .num _, .posInf => .negInf
  | .num _, .negInf => .posInf
  | .num a, .num b => .num (a - b)

/-- JS comparison `a >= b` on numbers: any comparison with NaN is false. -/
def jsGe : JsNum → JsNum → Bool
  | .nan, _ => false
  | _, .nan => false
  | .posInf, _ => true
  | .negInf, .negInf => true
  | .negInf, _ => false
  | .num _, .posInf => false
  | .num _, .negInf => true
  | .num a, .num b => a ≥ b

/-- JS comparison `x >= b` where `x` is known finite (`Date.now()`
arithmetic in the cron callback). -/
def intGeJs (x : Int) : JsNum → Bool
  | .nan => false
  | .posInf => false
  | .negInf => true
  | .num n => x ≥ n

/-- The sign a comparator value contributes to `Array.prototype.sort`:
ES SortCompare maps a NaN comparator result to `+0`. -/
def cmpResult : JsNum → Int
  | .nan => 0
  | .posInf => 1
  | .negInf => -1
  | .num n => n

/-- JS `a || b` where `a` is a possibly-undefined string: `a` when truthy
(present and nonempty), else `b`. -/
def orStr (a : Option String) (b : String) : String :=
  match a with
  | some s => if s = "" then b else s
  | none => b

/-- Truthiness of a possibly-undefined string field. -/
def strTruthy : Option String → Bool
  | some s => s ≠ ""
  | none => false

/-- Truthiness of a possibly-undefined number field. -/
def optNumTruthy : Option JsNum → Bool
  | some v => v.truthy
  | none => false

/-- The whitespace JS `String.prototype.trim` strips (the ASCII part,
which is all this program ever feeds it). -/
def isJsSpace (c : Char) : Bool := c = ' ' || c = '\t' || c = '\n' || c = '\r'

/-- JS `s.trim()`, modelled on the character list. -/
def jsTrim (s : String) : String :=
  String.mk (((s.data.dropWhile isJsSpace).reverse.dropWhile isJsSpace).reverse)

/-- An item of a parsed feed, as `rss-parser` hands it over: every field is
untrusted and possibly absent. -/
structure FeedItem where
  title : Option String
  link : Option String
  guid : Option String
  isoDate : Option String
  pubDate : Option String
deriving DecidableEq

/-- `getItemLinkOrGuid` (line 177): `item.link || item.guid || ''`. -/
def getItemLinkOrGuid (item : FeedItem) : String :=
  orStr item.link (orStr item.guid "")

/-- `getItemDate` (line 180): parse `isoDate` when truthy, else `pubDate`
when truthy, else `0`.  `pd` is the host date parser
`s => new Date(s).getTime()`, which yields NaN on malformed input. -/
def getItemDate (pd : String → JsNum) (item : FeedItem) : JsNum :=
  if strTruthy item.isoDate then pd (item.isoDate.getD "")
  else if strTruthy item.pubDate then pd (item.pubDate.getD "")
  else .num 0

/-- `isValidUrl` is a host primitive (`new URL`); `sanitizeLink` (line 80):
trim, then empty out anything that fails URL validation. -/
def sanitizeLink (validUrl : String → Bool) (link : String) : String :=
  let s := jsTrim link
  if validUrl s = false then "" else s

/-- `clampTitle` (line 76): `String(t || 'Article').trim()` sliced to at
most `max` characters.  `slice(0, max)` is modelled on the character
list. -/
def clampTitle (t : Option String) (max : Nat) : String :=
  let s := jsTrim (orStr t "Article")
  if s.length > max then String.mk (s.data.take max) else s

/-- The comparator of `checkFlux` (line 201): `(a, b) => b.d - a.d`,
with the ES treatment of a NaN comparator value as `+0`. -/
def dateDesc (a b : FeedItem × JsNum) : Int := cmpResult (JsNum.sub b.2 a.2)

/-- Insert into a sorted list, before the first element the comparator
does not order strictly after; keeping insertion stable. -/
def sortInsert (cmp : α → α → Int) (x : α) : List α → List α
  | [] => [x]
  | y :: ys => if cmp x y ≤ 0 then x :: y :: ys else y :: sortInsert cmp x ys

/-- `Array.prototype.sort` with a comparator: stable (ES2019). -/
def stableSort (cmp : α → α → Int) : List α → List α
  | [] => []
  | x :: xs => sortInsert cmp x (stableSort cmp xs)

/-- Lines 197-205 of `checkFlux`: start from `items[0]`, and when the
top of the date-descending sort carries a truthy date take that item. -/
def selectLatest (pd : String → JsNum) (items : List FeedItem) : Option FeedItem :=
  match items with
  | [] => none
  | first :: _ =>
    let sorted := stableSort dateDesc (items.map fun i => (i, getItemDate pd i))
    match sorted with
    | [] => some first
    | (i, d) :: _ => some (if d.truthy then i else first)

/-- A subscription record (`Flux` model of `part_000`), together with the
two in-memory fields the server adds to the Mongoose document:
`lastPubDate` (set by `checkFlux`) and `lastCheck` (the cron callback
field `_lastCheck`). -/
structure Flux where
  rssUrl : String
  discordTarget : String
  interval : JsNum
  lastItem : Option String
  lastPubDate : Option JsNum
  active : Bool
  lastCheck : Option Int
deriving DecidableEq

/-- The anti-duplicate gate of `checkFlux` (line 214):
`flux.lastItem === latestLink || (flux.lastPubDate && latestDate && flux.lastPubDate >= latestDate)`.
When `lastPubDate` is undefined the comparison would be false anyway
(NaN), which `getD .nan` reproduces. -/
def isDuplicate (flux : Flux) (latestLink : String) (latestDate : JsNum) : Bool :=
  (flux.lastItem == some latestLink) ||
    (optNumTruthy flux.lastPubDate && latestDate.truthy &&
      jsGe (flux.lastPubDate.getD .nan) latestDate)

/-- An outbound Discord write, with the payload fields the program
builds. -/
inductive SendAction where
  | forumThread (channelId : String) (name : String) (autoArchive : Nat) (content : String)
  | textMessage (channelId : String) (content : String)
deriving DecidableEq

/-- `createForumThread` (line 129): payload name `clampTitle(title, 90)`,
`auto_archive_duration: 1440`, message content
`String(content || title || 'Article').trim()`. -/
def createForumThread (channelId title content : String) : SendAction :=
  .forumThread channelId (clampTitle (some title) 90) 1440
    (jsTrim (orStr (some content) (orStr (some title) "Article")))

/-- `postTextMessage` (line 142): payload content `String(content || '').trim()`. -/
def postTextMessage (channelId content : String) : SendAction :=
  .textMessage channelId (jsTrim (orStr (some content) ""))

/-- What `sendToDiscord` does: either one outbound write, or the throw
`Type de salon non supporte` with no write at all. -/
inductive SendResult where
  | call (a : SendAction)
  | unsupportedChannelType (t : Int)
deriving DecidableEq

/-- The `content` local of `sendToDiscord` (line 157):
the clamped title, with the sanitized link appended when nonempty. -/
def messageContent (validUrl : String → Bool) (title : Option String) (link : String) : String :=
  let safeTitle := clampTitle title 100
  let safeLink := sanitizeLink validUrl link
  if safeLink ≠ "" then safeTitle ++ "\n" ++ safeLink else safeTitle

/-- `sendToDiscord` (line 152), with the channel type (the `getChannel`
lookup result) as an input.  The bot token is assumed configured — the
token guard is environment setup, not delivery logic. -/
def sendToDiscord (validUrl : String → Bool) (channelType : Int) (channelId : String)
    (title : Option String) (link : String) : SendResult :=
  if channelType = 15 then
    .call (createForumThread channelId (clampTitle title 100) (messageContent validUrl title link))
  else if channelType = 0 then
    .call (postTextMessage channelId (messageContent validUrl title link))
  else .unsupportedChannelType channelType

/-- One HTTP response of the Discord API, as `discordFetch` inspects it:
status, the parsed `retry_after` of a 429 body (`none` when the body is
absent, unparsable, NaN or missing the field), and the response text. -/
structure HttpResp where
  status : Nat
  retryAfter : Option ℚ
  body : String
deriving DecidableEq

/-- `resp.ok`: status in 200..299. -/
def respOk (r : HttpResp) : Bool := 200 ≤ r.status && r.status < 300

/-- Line 101: `Math.ceil((body.retry_after || 1) * 1000)`; a falsy or
absent `retry_after` defaults to 1 second. -/
def retryWaitMs (retryAfter : Option ℚ) : Int :=
  Int.ceil ((match retryAfter with
    | some v => if v = 0 then (1 : ℚ) else v
    | none => (1 : ℚ)) * 1000)

/-- The observable outcome of `discordFetch`: the final response (success)
or the thrown error with status and body text (failure), plus the
sequence of rate-limit waits performed on the way. -/
inductive FetchOutcome where
  | success (status : Nat) (body : String) (waits : List Int)
  | failure (status : Nat) (body : String) (waits : List Int)
deriving DecidableEq

/-- The waits an outcome records. -/
def FetchOutcome.waits : FetchOutcome → List Int
  | .success _ _ ws => ws
  | .failure _ _ ws => ws

/-- Record one more wait in front of an outcome. -/
def addWait (w : Int) : FetchOutcome → FetchOutcome
  | .success s b ws => .success s b (w :: ws)
  | .failure s b ws => .failure s b (w :: ws)

/-- `discordFetch` (line 90), driven by the list of responses the server
returns to the successive attempts; `none` when the modelled response list
runs out.  On a 429 with retries left it waits `retryWaitMs` and retries
with `retries - 1`; otherwise a non-ok response is the thrown error and an
ok response is returned. -/
def discordFetch : List HttpResp → Nat → Option FetchOutcome
  | [], _ => none
  | r :: rest, retries =>
    if r.status = 429 ∧ 0 < retries then
      (discordFetch rest (retries - 1)).map (addWait (retryWaitMs r.retryAfter))
    else if respOk r = false then some (.failure r.status r.body [])
    else some (.success r.status r.body [])

/-- The result of `parseRssWithTimeout`: the parsed item list, or any of
the rejection modes (network failure, malformed document, the 20s
timeout).  A document whose `items` is not an array reads as `ok []`. -/
inductive RssResult where
  | ok (items : List FeedItem)
  | error
deriving DecidableEq

/-- How one `checkFlux` run ended.  Every branch other than `delivered`
leaves the subscription untouched; the error branches are the ones the
`try/catch` of `checkFlux` logs. -/
inductive CheckStatus where
  | invalidUrl
  | fetchError
  | noItems
  | noLink
  | noNovelty
  | unsupportedChannel (t : Int)
  | deliveryFailed (a : SendAction)
  | delivered (a : SendAction)
deriving DecidableEq

/-- The state after a `checkFlux` run plus how it ended. -/
structure CheckOutcome where
  flux : Flux
  status : CheckStatus
deriving DecidableEq

/-- `checkFlux` (line 186).  The fetched feed, the channel type and the
success of the Discord call are explicit inputs; the `try/catch` makes
every error an ordinary outcome with the state unchanged.  `flux.save()`
is modelled as recording the mutated document. -/
def checkFlux (validUrl : String → Bool) (pd : String → JsNum) (flux : Flux)
    (fetched : RssResult) (channelType : Int) (deliveryOk : Bool) : CheckOutcome :=
  if validUrl flux.rssUrl = false then ⟨flux, .invalidUrl⟩ else
  match fetched with
  | .error => ⟨flux, .fetchError⟩
  | .ok items =>
    match selectLatest pd items with
    | none => ⟨flux, .noItems⟩
    | some latest =>
      let latestLink := sanitizeLink validUrl (getItemLinkOrGuid latest)
      let latestDate := getItemDate pd latest
      if latestLink = "" then ⟨flux, .noLink⟩
      else if isDuplicate flux latestLink latestDate then ⟨flux, .noNovelty⟩
      else
        match sendToDiscord validUrl channelType flux.discordTarget latest.title latestLink with
        | .unsupportedChannelType t => ⟨flux, .unsupportedChannel t⟩
        | .call a =>
          if deliveryOk then
            ⟨{ flux with
                lastItem := some latestLink
                lastPubDate := if latestDate.truthy then some latestDate else flux.lastPubDate },
              .delivered a⟩
          else ⟨flux, .deliveryFailed a⟩

/-- Line 236: `Number.isFinite(flux.interval) ? flux.interval : 60000`. -/
def effInterval (iv : JsNum) : JsNum :=
  if iv.isFinite then iv else .num 60000

/-- Line 237: `!flux._lastCheck || now - flux._lastCheck >= interval`. -/
def dueCheck (now : Int) (f : Flux) : Bool :=
  match f.lastCheck with
  | none => true
  | some lc => if lc = 0 then true else intGeJs (now - lc) (effInterval f.interval)

/-- The per-subscription body of the cron callback (lines 235-241): when
due, stamp `_lastCheck := now` and enqueue (`true`); otherwise leave the
record alone. -/
def tickStep (now : Int) (f : Flux) : Flux × Bool :=
  if dueCheck now f then ({ f with lastCheck := some now }, true) else (f, false)

/-- One cron tick (line 229): load the active subscriptions and apply
`tickStep` to each. -/
def schedulerTick (now : Int) (fluxes : List Flux) : List (Flux × Bool) :=
  (fluxes.filter fun f => f.active).map (tickStep now)

/-- The per-check environment of one scheduled `checkFlux` run. -/
structure CheckInput where
  fetched : RssResult
  channelType : Int
  deliveryOk : Bool
deriving DecidableEq

/-- The batch `Promise.allSettled(toRun)` of the cron callback: every
enqueued check runs on its own subscription and its own environment. -/
def runChecks (validUrl : String → Bool) (pd : String → JsNum) :
    List Flux → List CheckInput → List CheckOutcome :=
  List.zipWith fun f x => checkFlux validUrl pd f x.fetched x.channelType x.deliveryOk

/-- `Flux.toggleActive` of `part_000` (line 44): `findOne({rssUrl})` finds
the first record with that URL; when found its `active` flag is flipped
and saved, else `null` comes back. -/
def toggleActive : List Flux → String → List Flux × Option Flux
  | [], _ => ([], none)
  | f :: fs, url =>
    if f.rssUrl = url then
      let f' := { f with active := !f.active }
      (f' :: fs, some f')
    else
      let p := toggleActive fs url
      (f :: p.1, p.2)

/-- The reply of the `/toggle` route. -/
inductive ToggleReply where
  | badRequest
  | notFound
  | okActive (active : Bool)
deriving DecidableEq

/-- The `/toggle` route (line 309): validate the URL, call
`Flux.toggleActive`, 404 on `null`, else reply with the new flag. -/
def toggleRoute (validUrl : String → Bool) (store : List Flux) (rssUrl : Option String) :
    List Flux × ToggleReply :=
  match rssUrl with
  | none => (store, .badRequest)
  | some url =>
    if url = "" ∨ validUrl url = false then (store, .badRequest)
    else
      let p := toggleActive store url
      match p.2 with
      | none => (store, .notFound)
      | some f' => (p.1, .okActive f'.active)

/-- A concrete instance of the host date parser on which every string is
malformed (`new Date(s).getTime()` gives NaN). -/
def pdAllNan : String → JsNum := fun _ => .nan

/-- Literal leading-match on character lists (for the concrete URL
validator below). -/
def litLead : List Char → List Char → Bool
  | [], _ => true
  | _ :: _, [] => false
  | c :: cs, d :: ds => c = d && litLead cs ds

/-- A concrete instance of the host URL validator, agreeing with
`new URL` on the strings used in the concrete runs below. -/
def urlLike (s : String) : Bool :=
  litLead "http://".data s.data || litLead "https://".data s.data

/-! Concrete fixtures used by witnesses and counterexamples. -/

/-- A concrete date parser: two known date strings, everything else
malformed (NaN). -/
def pdEx : String → JsNum :=
  fun s => if s = "d1" then .num 100 else if s = "d2" then .num 200 else .nan

def itemA : FeedItem := ⟨some "A", some "http://a/", none, some "d1", none⟩
def itemB : FeedItem := ⟨some "B", some "http://b/", none, some "d2", none⟩

/-- A fresh subscription: no last-seen link, no last-seen timestamp. -/
def fluxFresh : Flux := ⟨"http://feed/", "123456789012345678", .num 60000, none, none, true, none⟩

/-- A subscription that has already seen link `http://a/` at timestamp 5. -/
def fluxSeen : Flux :=
  ⟨"http://feed/", "123456789012345678", .num 60000, some "http://a/", some (.num 5), true, none⟩

/-- An item with a different link and no date fields: its parsed date is 0. -/
def itemNoDate : FeedItem := ⟨some "B", some "http://b/", none, none, none⟩

/-- A stored subscription whose interval is the finite but non-positive
number 0, last checked at epoch-millisecond 1000. -/
def fluxZeroInterval : Flux :=
  ⟨"http://feed/", "123456789012345678", .num 0, none, none, true, some 1000⟩

/-! The claims, C1 to C10, with their helper lemmas. -/

/-- C1: a subscription with no recorded lastSeenLink and no recorded
lastSeenTimestamp whose selected latest item carries a valid link gets
exactly that item delivered; its link is recorded as lastSeenLink and a
non-zero parsed date as lastSeenTimestamp. -/
theorem checkFlux_first_delivery
    (validUrl : String → Bool) (pd : String → JsNum) (flux : Flux)
    (items : List FeedItem) (latest : FeedItem) (channelType : Int) (a : SendAction)
    (hLast : flux.lastItem = none) (hTs : flux.lastPubDate = none)
    (hUrl : validUrl flux.rssUrl = true)
    (hSel : selectLatest pd items = some latest)
    (hLink : sanitizeLink validUrl (getItemLinkOrGuid latest) ≠ "")
    (hSend : sendToDiscord validUrl channelType flux.discordTarget latest.title
        (sanitizeLink validUrl (getItemLinkOrGuid latest)) = .call a) :
    (checkFlux validUrl pd flux (.ok items) channelType true).status = .delivered a ∧
    (checkFlux validUrl pd flux (.ok items) channelType true).flux.lastItem
      = some (sanitizeLink validUrl (getItemLinkOrGuid latest)) ∧
    ∀ d : Int, getItemDate pd latest = .num d → d ≠ 0 →
      (checkFlux validUrl pd flux (.ok items) channelType true).flux.lastPubDate
        = some (.num d) := by
  have hdup : isDuplicate flux (sanitizeLink validUrl (getItemLinkOrGuid latest))
      (getItemDate pd latest) = false := by
    simp [isDuplicate, hLast, hTs, optNumTruthy]
  refine ⟨?_, ?_, ?_⟩
  · simp [checkFlux, hUrl, hSel, hLink, hdup, hSend]
  · simp [checkFlux, hUrl, hSel, hLink, hdup, hSend]
  · intro d hd hdnz
    rw [hd] at hdup
    simp [checkFlux, hUrl, hSel, hLink, hdup, hSend, hd, JsNum.truthy, hdnz]

/-- C1 witness: the spec example, feed `[itemA (T1=100), itemB (T2=200)]`
and a fresh subscription: itemB is selected, delivered as a plain text
message, and both markers are recorded. -/
theorem checkFlux_first_delivery_witness :
    (checkFlux urlLike pdEx fluxFresh (.ok [itemA, itemB]) 0 true).status
      = .delivered (.textMessage "123456789012345678" "B\nhttp://b/") ∧
    (checkFlux urlLike pdEx fluxFresh (.ok [itemA, itemB]) 0 true).flux.lastItem
      = some (sanitizeLink urlLike (getItemLinkOrGuid itemB)) ∧
    (∀ d : Int, getItemDate pdEx itemB = .num d → d ≠ 0 →
      (checkFlux urlLike pdEx fluxFresh (.ok [itemA, itemB]) 0 true).flux.lastPubDate
        = some (.num d)) :=
  checkFlux_first_delivery urlLike pdEx fluxFresh [itemA, itemB] itemB 0
    (.textMessage "123456789012345678" "B\nhttp://b/")
    rfl rfl (by decide) (by decide) (by decide) (by decide)

/-- Inversion: a run that ended `delivered` validated the URL, selected a
latest item with a nonempty sanitized link, and recorded the link (and a
truthy date) on the subscription. -/
lemma checkFlux_delivered_inv
    (validUrl : String → Bool) (pd : String → JsNum) (flux : Flux)
    (items : List FeedItem) (channelType : Int) (ok : Bool) (a : SendAction)
    (h : (checkFlux validUrl pd flux (.ok items) channelType ok).status = .delivered a) :
    ∃ latest, selectLatest pd items = some latest ∧
      validUrl flux.rssUrl = true ∧
      sanitizeLink validUrl (getItemLinkOrGuid latest) ≠ "" ∧
      (checkFlux validUrl pd flux (.ok items) channelType ok).flux
        = { flux with
            lastItem := some (sanitizeLink validUrl (getItemLinkOrGuid latest))
            lastPubDate := if (getItemDate pd latest).truthy then some (getItemDate pd latest)
              else flux.lastPubDate } := by
  by_cases hu : validUrl flux.rssUrl = false
  · simp [checkFlux, hu] at h
  · have hu' : validUrl flux.rssUrl = true := by
      cases hv : validUrl flux.rssUrl
      · exact absurd hv hu
      · rfl
    cases hsel : selectLatest pd items with
    | none => simp [checkFlux, hu', hsel] at h
    | some latest =>
      by_cases hlink : sanitizeLink validUrl (getItemLinkOrGuid latest) = ""
      · simp [checkFlux, hu', hsel, hlink] at h
      · by_cases hdup : isDuplicate flux (sanitizeLink validUrl (getItemLinkOrGuid latest))
            (getItemDate pd latest) = true
        · simp [checkFlux, hu', hsel, hlink, hdup] at h
        · cases hsend : sendToDiscord validUrl channelType flux.discordTarget latest.title
              (sanitizeLink validUrl (getItemLinkOrGuid latest)) with
          | unsupportedChannelType t =>
            simp [checkFlux, hu', hsel, hlink, hdup, hsend] at h
          | call b =>
            cases ok with
            | false => simp [checkFlux, hu', hsel, hlink, hdup, hsend] at h
            | true =>
              exact ⟨latest, rfl, hu', hlink, by
                simp [checkFlux, hu', hsel, hlink, hdup, hsend]⟩

/-- A run whose selected latest item carries the already-recorded link is
suppressed by the gate and leaves the subscription untouched. -/
lemma checkFlux_seen_link
    (validUrl : String → Bool) (pd : String → JsNum) (f : Flux)
    (items : List FeedItem) (latest : FeedItem) (channelType : Int) (ok : Bool)
    (hsel : selectLatest pd items = some latest)
    (hu : validUrl f.rssUrl = true)
    (hlink : sanitizeLink validUrl (getItemLinkOrGuid latest) ≠ "")
    (hseen : f.lastItem = some (sanitizeLink validUrl (getItemLinkOrGuid latest))) :
    checkFlux validUrl pd f (.ok items) channelType ok = ⟨f, .noNovelty⟩ := by
  have hdup : isDuplicate f (sanitizeLink validUrl (getItemLinkOrGuid latest))
      (getItemDate pd latest) = true := by
    simp [isDuplicate, hseen]
  simp [checkFlux, hu, hsel, hlink, hdup]

/-- C2: once a check has delivered the selected latest item, a second
check over the identical item list performs no delivery and leaves the
subscription state unchanged, whatever channel type is then resolved and
whether or not the Discord call would succeed. -/
theorem checkFlux_recheck_no_delivery
    (validUrl : String → Bool) (pd : String → JsNum) (flux : Flux)
    (items : List FeedItem) (channelType : Int) (a : SendAction)
    (h : (checkFlux validUrl pd flux (.ok items) channelType true).status = .delivered a) :
    ∀ (channelType' : Int) (ok' : Bool),
      checkFlux validUrl pd (checkFlux validUrl pd flux (.ok items) channelType true).flux
          (.ok items) channelType' ok'
        = ⟨(checkFlux validUrl pd flux (.ok items) channelType true).flux, .noNovelty⟩ := by
  obtain ⟨latest, hsel, hu, hlink, hflux⟩ :=
    checkFlux_delivered_inv validUrl pd flux items channelType true a h
  intro channelType' ok'
  refine checkFlux_seen_link validUrl pd _ items latest channelType' ok' hsel ?_ hlink ?_
  · rw [hflux]
    exact hu
  · rw [hflux]

/-- C2 witness: after the first check of the spec example delivers itemB,
the identical second check reports no novelty and changes nothing. -/
theorem checkFlux_recheck_no_delivery_witness :
    checkFlux urlLike pdEx (checkFlux urlLike pdEx fluxFresh (.ok [itemA, itemB]) 0 true).flux
        (.ok [itemA, itemB]) 0 true
      = ⟨(checkFlux urlLike pdEx fluxFresh (.ok [itemA, itemB]) 0 true).flux, .noNovelty⟩ :=
  checkFlux_recheck_no_delivery urlLike pdEx fluxFresh [itemA, itemB] 0
    (.textMessage "123456789012345678" "B\nhttp://b/") (by decide) 0 true

/-- C3 counterexample: the candidate date (0, the item has no date fields)
is not strictly newer than the recorded lastSeenTimestamp (5), the link
differs from lastSeenLink, and yet the check delivers and updates the
state: the gate of line 214 additionally requires the candidate date to be
truthy, so the claim as stated is false. -/
theorem checkFlux_date_gate_counterexample :
    fluxSeen.lastPubDate = some (.num 5) ∧
    selectLatest pdEx [itemNoDate] = some itemNoDate ∧
    getItemDate pdEx itemNoDate = .num 0 ∧
    jsGe (.num 5) (getItemDate pdEx itemNoDate) = true ∧
    fluxSeen.lastItem ≠ some (sanitizeLink urlLike (getItemLinkOrGuid itemNoDate)) ∧
    (checkFlux urlLike pdEx fluxSeen (.ok [itemNoDate]) 0 true).status
      = .delivered (.textMessage "123456789012345678" "B\nhttp://b/") ∧
    (checkFlux urlLike pdEx fluxSeen (.ok [itemNoDate]) 0 true).flux.lastItem
      = some "http://b/" := by
  decide

/-- C3 (amended): when the subscription has a recorded (truthy)
lastSeenTimestamp and the selected latest item has a NON-ZERO parsed date
not strictly newer than it, no delivery and no state update happen even
when the link differs; a candidate whose parsed date is 0 or NaN is not
covered by the date gate. -/
theorem checkFlux_date_gate
    (validUrl : String → Bool) (pd : String → JsNum) (flux : Flux)
    (items : List FeedItem) (latest : FeedItem) (channelType : Int) (ok : Bool)
    (t d : Int)
    (hsel : selectLatest pd items = some latest)
    (hts : flux.lastPubDate = some (.num t)) (ht : t ≠ 0)
    (hdate : getItemDate pd latest = .num d) (hd : d ≠ 0) (hle : d ≤ t) :
    (checkFlux validUrl pd flux (.ok items) channelType ok).flux = flux ∧
    ∀ a, (checkFlux validUrl pd flux (.ok items) channelType ok).status ≠ .delivered a ∧
      (checkFlux validUrl pd flux (.ok items) channelType ok).status ≠ .deliveryFailed a := by
  by_cases hu : validUrl flux.rssUrl = false
  · constructor
    · simp [checkFlux, hu]
    · intro a
      constructor <;> simp [checkFlux, hu]
  · by_cases hlink : sanitizeLink validUrl (getItemLinkOrGuid latest) = ""
    · constructor
      · simp [checkFlux, hu, hsel, hlink]
      · intro a
        constructor <;> simp [checkFlux, hu, hsel, hlink]
    · have hdup : isDuplicate flux (sanitizeLink validUrl (getItemLinkOrGuid latest))
          (getItemDate pd latest) = true := by
        have : jsGe (.num t) (.num d) = true := by
          simp [jsGe]
          omega
        simp [isDuplicate, hts, hdate, optNumTruthy, JsNum.truthy, ht, hd, this]
      constructor
      · simp [checkFlux, hu, hsel, hlink, hdup]
      · intro a
        constructor <;> simp [checkFlux, hu, hsel, hlink, hdup]

/-- C3 witness: stored timestamp 200, candidate itemA with date 100 and a
link different from the stored one: no delivery, no state change. -/
theorem checkFlux_date_gate_witness :
    (checkFlux urlLike pdEx
        ⟨"http://feed/", "123456789012345678", .num 60000, some "http://z/", some (.num 200), true, none⟩
        (.ok [itemA]) 0 true).flux
      = ⟨"http://feed/", "123456789012345678", .num 60000, some "http://z/", some (.num 200), true, none⟩ ∧
    ∀ a, (checkFlux urlLike pdEx
        ⟨"http://feed/", "123456789012345678", .num 60000, some "http://z/", some (.num 200), true, none⟩
        (.ok [itemA]) 0 true).status ≠ .delivered a ∧
      (checkFlux urlLike pdEx
        ⟨"http://feed/", "123456789012345678", .num 60000, some "http://z/", some (.num 200), true, none⟩
        (.ok [itemA]) 0 true).status ≠ .deliveryFailed a :=
  checkFlux_date_gate urlLike pdEx
    ⟨"http://feed/", "123456789012345678", .num 60000, some "http://z/", some (.num 200), true, none⟩
    [itemA] itemA 0 true 200 100 (by decide) rfl (by decide) (by decide) (by decide) (by decide)

/-- C4: when the selected latest item's candidate link (link, falling back
to guid) is empty or fails URL validation, the run stops with the state
unchanged before any delivery is attempted: the only possible outcomes are
the invalid-feed-URL warning and the linkless return. -/
theorem checkFlux_invalid_link
    (validUrl : String → Bool) (pd : String → JsNum) (flux : Flux)
    (items : List FeedItem) (latest : FeedItem) (channelType : Int) (ok : Bool)
    (hsel : selectLatest pd items = some latest)
    (hbad : getItemLinkOrGuid latest = "" ∨ validUrl (jsTrim (getItemLinkOrGuid latest)) = false) :
    checkFlux validUrl pd flux (.ok items) channelType ok = ⟨flux, .invalidUrl⟩ ∨
    checkFlux validUrl pd flux (.ok items) channelType ok = ⟨flux, .noLink⟩ := by
  have hempty : sanitizeLink validUrl (getItemLinkOrGuid latest) = "" := by
    cases hbad with
    | inl h => simp [sanitizeLink, h, jsTrim, isJsSpace]
    | inr h => simp [sanitizeLink, h]
  by_cases hu : validUrl flux.rssUrl = false
  · left
    simp [checkFlux, hu]
  · right
    simp [checkFlux, hu, hsel, hempty]

/-- C4 witness: an item whose only link field is a guid that is not a URL
is never delivered; the run returns with the fresh subscription
untouched. -/
theorem checkFlux_invalid_link_witness :
    checkFlux urlLike pdEx fluxFresh
        (.ok [⟨some "T", none, some "not a url", some "d1", none⟩]) 0 true
      = ⟨fluxFresh, .invalidUrl⟩ ∨
    checkFlux urlLike pdEx fluxFresh
        (.ok [⟨some "T", none, some "not a url", some "d1", none⟩]) 0 true
      = ⟨fluxFresh, .noLink⟩ :=
  checkFlux_invalid_link urlLike pdEx fluxFresh
    [⟨some "T", none, some "not a url", some "d1", none⟩]
    ⟨some "T", none, some "not a url", some "d1", none⟩ 0 true
    (by decide) (Or.inr (by decide))

/-- The clamp really bounds the length: `clampTitle` never returns more
than `max` characters. -/
lemma clampTitle_length_le (t : Option String) (max : Nat) :
    (clampTitle t max).length ≤ max := by
  unfold clampTitle
  by_cases h : (jsTrim (orStr t "Article")).length > max
  · simp only [h, if_true]
    show ((jsTrim (orStr t "Article")).data.take max).length ≤ max
    rw [List.length_take]
    exact min_le_left _ _
  · simp only [h, if_false]
    omega

/-- C5: the resolved channel type decides the outbound call: type 15
creates a forum thread whose name is the (already clamped) title clamped
to at most 90 characters with auto-archive 1440 minutes; type 0 posts a
plain text message; any other type throws UnsupportedChannelType with no
outbound write. -/
theorem sendToDiscord_channel_dispatch :
    ∀ (validUrl : String → Bool) (channelId : String) (title : Option String) (link : String),
    sendToDiscord validUrl 15 channelId title link
      = .call (.forumThread channelId (clampTitle (some (clampTitle title 100)) 90) 1440
          (jsTrim (orStr (some (messageContent validUrl title link))
            (orStr (some (clampTitle title 100)) "Article")))) ∧
    (∀ t : Option String, (clampTitle t 90).length ≤ 90) ∧
    sendToDiscord validUrl 0 channelId title link
      = .call (.textMessage channelId (jsTrim (orStr (some (messageContent validUrl title link)) ""))) ∧
    (∀ t : Int, t ≠ 15 → t ≠ 0 →
      sendToDiscord validUrl t channelId title link = .unsupportedChannelType t) := by
  intro validUrl channelId title link
  refine ⟨rfl, fun t => clampTitle_length_le t 90, rfl, ?_⟩
  intro t h15 h0
  simp [sendToDiscord, h15, h0]

/-- C6: on a 429 the transport waits the server-specified delay (1000 ms
when `retry_after` is absent, unparsable or falsy) and retries with one
retry fewer; a non-429 non-success (or a 429 with retries exhausted) is
the thrown error carrying the HTTP status and the response body; the
number of waits (hence of additional attempts) never exceeds the retry
budget, which the call sites fix at 2. -/
theorem discordFetch_rate_limit :
    retryWaitMs none = 1000 ∧
    (∀ q : ℚ, q ≠ 0 → retryWaitMs (some q) = Int.ceil (q * 1000)) ∧
    (∀ (r : HttpResp) (rest : List HttpResp) (retries : Nat), r.status = 429 → 0 < retries →
      discordFetch (r :: rest) retries
        = (discordFetch rest (retries - 1)).map (addWait (retryWaitMs r.retryAfter))) ∧
    (∀ (r : HttpResp) (rest : List HttpResp) (retries : Nat),
      (r.status = 429 → retries = 0) → respOk r = false →
      discordFetch (r :: rest) retries = some (.failure r.status r.body [])) ∧
    (∀ (resps : List HttpResp) (retries : Nat) (out : FetchOutcome),
      discordFetch resps retries = some out → out.waits.length ≤ retries) := by
  refine ⟨?_, ?_, ?_, ?_, ?_⟩
  · norm_num [retryWaitMs]
  · intro q hq
    simp [retryWaitMs, hq]
  · intro r rest retries h429 hpos
    simp [discordFetch, h429, hpos]
  · intro r rest retries hnot hok
    have hcond : ¬ (r.status = 429 ∧ 0 < retries) := by
      rintro ⟨h1, h2⟩
      have h3 := hnot h1
      omega
    simp [discordFetch, hcond, hok]
  · intro resps
    induction resps with
    | nil => intro retries out h; simp [discordFetch] at h
    | cons r rest ih =>
      intro retries out h
      by_cases hc : r.status = 429 ∧ 0 < retries
      · rw [discordFetch, if_pos hc] at h
        cases hrec : discordFetch rest (retries - 1) with
        | none => rw [hrec] at h; simp at h
        | some out' =>
          rw [hrec] at h
          have h' : addWait (retryWaitMs r.retryAfter) out' = out := by
            simpa using h
          have hl := ih (retries - 1) out' hrec
          rw [← h']
          cases out' with
          | success s b ws =>
            simp [addWait, FetchOutcome.waits] at hl ⊢
            omega
          | failure s b ws =>
            simp [addWait, FetchOutcome.waits] at hl ⊢
            omega
      · rw [discordFetch, if_neg hc] at h
        by_cases hok : respOk r = false
        · rw [if_pos hok] at h
          cases h
          simp [FetchOutcome.waits]
        · rw [if_neg hok] at h
          cases h
          simp [FetchOutcome.waits]

/-- C7: every run of a scheduled check ends in an ordinary outcome (the
try/catch of checkFlux turns fetch failures, unsupported channel types and
failed deliveries into logged returns); any outcome other than a
successful delivery leaves the subscription record exactly as it was; and
the batch of a tick maps each enqueued check to its own outcome, so one
check's outcome never changes a sibling's, and every enqueued pair
produces an outcome. -/
theorem checkFlux_errors_contained :
    (∀ (validUrl : String → Bool) (pd : String → JsNum) (f : Flux)
        (fetched : RssResult) (channelType : Int) (ok : Bool),
      (∀ a, (checkFlux validUrl pd f fetched channelType ok).status ≠ .delivered a) →
      (checkFlux validUrl pd f fetched channelType ok).flux = f) ∧
    (∀ (validUrl : String → Bool) (pd : String → JsNum) (f : Flux) (fs : List Flux)
        (x : CheckInput) (xs : List CheckInput),
      runChecks validUrl pd (f :: fs) (x :: xs)
        = checkFlux validUrl pd f x.fetched x.channelType x.deliveryOk :: runChecks validUrl pd fs xs) ∧
    (∀ (validUrl : String → Bool) (pd : String → JsNum) (fs : List Flux) (xs : List CheckInput),
      (runChecks validUrl pd fs xs).length = min fs.length xs.length) := by
  refine ⟨?_, ?_, ?_⟩
  · intro validUrl pd f fetched channelType ok h
    by_cases hu : validUrl f.rssUrl = false
    · simp [checkFlux, hu]
    · cases fetched with
      | error => simp [checkFlux, hu]
      | ok items =>
        cases hsel : selectLatest pd items with
        | none => simp [checkFlux, hu, hsel]
        | some latest =>
          by_cases hlink : sanitizeLink validUrl (getItemLinkOrGuid latest) = ""
          · simp [checkFlux, hu, hsel, hlink]
          · by_cases hdup : isDuplicate f (sanitizeLink validUrl (getItemLinkOrGuid latest))
                (getItemDate pd latest) = true
            · simp [checkFlux, hu, hsel, hlink, hdup]
            · cases hsend : sendToDiscord validUrl channelType f.discordTarget latest.title
                  (sanitizeLink validUrl (getItemLinkOrGuid latest)) with
              | unsupportedChannelType t => simp [checkFlux, hu, hsel, hlink, hdup, hsend]
              | call b =>
                cases ok with
                | false => simp [checkFlux, hu, hsel, hlink, hdup, hsend]
                | true =>
                  exfalso
                  exact h b (by simp [checkFlux, hu, hsel, hlink, hdup, hsend])
  · intro validUrl pd f fs x xs
    rfl
  · intro validUrl pd fs xs
    simp [runChecks]

/-- C8 counterexample: the stored interval 0 is finite but not positive,
so the claim's effective interval would be 60000 ms and, with zero elapsed
time since the last check, the claim says no check is enqueued; the code
only substitutes 60000 for non-finite intervals, keeps interval 0, and
enqueues the check. -/
theorem tickStep_zero_interval_counterexample :
    fluxZeroInterval.interval = .num 0 ∧
    ¬ (0 : Int) > 0 ∧
    fluxZeroInterval.lastCheck = some 1000 ∧
    ((1000 : Int) - 1000) < 60000 ∧
    (tickStep 1000 fluxZeroInterval).2 = true ∧
    schedulerTick 1000 [fluxZeroInterval]
      = [({ fluxZeroInterval with lastCheck := some 1000 }, true)] := by
  decide

/-- C8 (amended): on a tick every active subscription is processed; the
effective interval is the stored interval when it is a FINITE number
(`Number.isFinite`; positivity is not checked), else 60000 ms; a check is
enqueued, with the in-memory last-check stamp set to the tick's `now`,
exactly when the stamp is absent (or 0, which is falsy) or the elapsed
time reaches the effective interval; otherwise the record is left
alone. -/
theorem schedulerTick_due
    (now : Int) (fluxes : List Flux) (f : Flux)
    (hMem : f ∈ fluxes) (hAct : f.active = true) :
    tickStep now f ∈ schedulerTick now fluxes ∧
    ((tickStep now f).2 = true ↔
      f.lastCheck = none ∨ f.lastCheck = some 0 ∨
        ∃ lc, f.lastCheck = some lc ∧
          intGeJs (now - lc) (if f.interval.isFinite then f.interval else .num 60000) = true) ∧
    ((tickStep now f).2 = true → (tickStep now f).1 = { f with lastCheck := some now }) ∧
    ((tickStep now f).2 = false → (tickStep now f).1 = f) := by
  have hdue : dueCheck now f = true ↔
      f.lastCheck = none ∨ f.lastCheck = some 0 ∨
        ∃ lc, f.lastCheck = some lc ∧
          intGeJs (now - lc) (if f.interval.isFinite then f.interval else .num 60000) = true := by
    unfold dueCheck effInterval
    cases hlc : f.lastCheck with
    | none => simp
    | some lc =>
      by_cases h0 : lc = 0
      · simp [h0]
      · simp [h0]
  have hsnd : (tickStep now f).2 = dueCheck now f := by
    unfold tickStep
    cases hdc : dueCheck now f <;> simp [hdc]
  refine ⟨?_, ?_, ?_, ?_⟩
  · exact List.mem_map_of_mem _ (List.mem_filter.mpr ⟨hMem, hAct⟩)
  · rw [hsnd, hdue]
  · intro h2
    unfold tickStep at h2 ⊢
    cases hdc : dueCheck now f with
    | false => rw [hdc] at h2; simp at h2
    | true => simp [hdc]
  · intro h2
    unfold tickStep at h2 ⊢
    cases hdc : dueCheck now f with
    | false => simp [hdc]
    | true => rw [hdc] at h2; simp at h2

/-- C8 witness: a subscription with interval 60000 last checked at 1000 is
due at 61000 and its stamp moves to 61000. -/
theorem schedulerTick_due_witness :
    tickStep 61000 ⟨"http://feed/", "123456789012345678", .num 60000, none, none, true, some 1000⟩
        ∈ schedulerTick 61000
          [⟨"http://feed/", "123456789012345678", .num 60000, none, none, true, some 1000⟩] ∧
    ((tickStep 61000 ⟨"http://feed/", "123456789012345678", .num 60000, none, none, true, some 1000⟩).2 = true ↔
      (⟨"http://feed/", "123456789012345678", .num 60000, none, none, true, some 1000⟩ : Flux).lastCheck = none ∨
      (⟨"http://feed/", "123456789012345678", .num 60000, none, none, true, some 1000⟩ : Flux).lastCheck = some 0 ∨
        ∃ lc, (⟨"http://feed/", "123456789012345678", .num 60000, none, none, true, some 1000⟩ : Flux).lastCheck = some lc ∧
          intGeJs (61000 - lc)
            (if (JsNum.num 60000).isFinite then JsNum.num 60000 else .num 60000) = true) ∧
    ((tickStep 61000 ⟨"http://feed/", "123456789012345678", .num 60000, none, none, true, some 1000⟩).2 = true →
      (tickStep 61000 ⟨"http://feed/", "123456789012345678", .num 60000, none, none, true, some 1000⟩).1
        = { (⟨"http://feed/", "123456789012345678", .num 60000, none, none, true, some 1000⟩ : Flux) with
            lastCheck := some 61000 }) ∧
    ((tickStep 61000 ⟨"http://feed/", "123456789012345678", .num 60000, none, none, true, some 1000⟩).2 = false →
      (tickStep 61000 ⟨"http://feed/", "123456789012345678", .num 60000, none, none, true, some 1000⟩).1
        = ⟨"http://feed/", "123456789012345678", .num 60000, none, none, true, some 1000⟩) :=
  schedulerTick_due 61000
    [⟨"http://feed/", "123456789012345678", .num 60000, none, none, true, some 1000⟩]
    ⟨"http://feed/", "123456789012345678", .num 60000, none, none, true, some 1000⟩
    (by decide) rfl

/-- C9 counterexample: an item whose `isoDate` field is present but
malformed: the host parse (`new Date(s).getTime()`) is NaN and
`getItemDate` returns that NaN, not epoch 0. -/
theorem getItemDate_malformed_nan :
    strTruthy (FeedItem.isoDate ⟨none, none, none, some "not a date", none⟩) = true ∧
    pdAllNan "not a date" = .nan ∧
    getItemDate pdAllNan ⟨none, none, none, some "not a date", none⟩ = .nan ∧
    JsNum.nan ≠ JsNum.num 0 := by
  decide

/-- C9 (amended): the parsed date is the host parse of `isoDate` when that
field is present and nonempty, else the host parse of `pubDate` when that
one is, and epoch 0 only when both are absent or empty; a malformed
present field yields NaN (the host parse result), which the novelty gate
then ignores exactly as it ignores a missing date. -/
theorem getItemDate_characterization :
    ∀ (pd : String → JsNum) (item : FeedItem),
      (strTruthy item.isoDate = true → getItemDate pd item = pd (item.isoDate.getD "")) ∧
      (strTruthy item.isoDate = false → strTruthy item.pubDate = true →
        getItemDate pd item = pd (item.pubDate.getD "")) ∧
      (strTruthy item.isoDate = false → strTruthy item.pubDate = false →
        getItemDate pd item = .num 0) ∧
      (∀ (f : Flux) (link : String), getItemDate pd item = .nan →
        isDuplicate f link (getItemDate pd item) = (f.lastItem == some link)) := by
  intro pd item
  refine ⟨?_, ?_, ?_, ?_⟩
  · intro h
    simp [getItemDate, h]
  · intro h1 h2
    simp [getItemDate, h1, h2]
  · intro h1 h2
    simp [getItemDate, h1, h2]
  · intro f link h
    rw [h]
    simp [isDuplicate, JsNum.truthy]

/-- C10: `toggleActive` finds the first stored subscription with the given
URL and flips only its `active` flag, leaving its every other field and
every other record unchanged; when no record matches it returns null and
the /toggle route replies 404 without touching the store. -/
theorem toggleActive_frame :
    (∀ (store : List Flux) (url : String),
      (∀ f, f ∈ store → f.rssUrl ≠ url) → toggleActive store url = (store, none)) ∧
    (∀ (store : List Flux) (url : String) (f' : Flux),
      (toggleActive store url).2 = some f' →
      ∃ pre f post, store = pre ++ f :: post ∧
        (∀ g, g ∈ pre → g.rssUrl ≠ url) ∧ f.rssUrl = url ∧
        f'.rssUrl = f.rssUrl ∧ f'.discordTarget = f.discordTarget ∧
        f'.interval = f.interval ∧ f'.lastItem = f.lastItem ∧
        f'.lastPubDate = f.lastPubDate ∧ f'.lastCheck = f.lastCheck ∧
        f'.active = !f.active ∧
        (toggleActive store url).1 = pre ++ f' :: post) ∧
    (∀ (validUrl : String → Bool) (store : List Flux) (url : String),
      url ≠ "" → validUrl url = true → (toggleActive store url).2 = none →
      toggleRoute validUrl store (some url) = (store, .notFound)) := by
  refine ⟨?_, ?_, ?_⟩
  · intro store
    induction store with
    | nil => intro url h; rfl
    | cons f fs ih =>
      intro url h
      have hf : f.rssUrl ≠ url := h f (List.mem_cons_self f fs)
      have hfs := ih url (fun g hg => h g (List.mem_cons_of_mem f hg))
      simp [toggleActive, hf, hfs]
  · intro store
    induction store with
    | nil => intro url f' h; simp [toggleActive] at h
    | cons f fs ih =>
      intro url f' h
      by_cases hf : f.rssUrl = url
      · refine ⟨[], f, fs, by simp, by simp, hf, ?_⟩
        have h' : f' = { f with active := !f.active } := by
          unfold toggleActive at h
          rw [if_pos hf] at h
          simp at h
          exact h.symm
        subst h'
        simp [toggleActive, hf]
      · have h2 : (toggleActive fs url).2 = some f' := by
          simpa [toggleActive, hf] using h
        obtain ⟨pre, g, post, hsplit, hpre, hurl, r1, r2, r3, r4, r5, r6, r7, r8⟩ :=
          ih url f' h2
        refine ⟨f :: pre, g, post, by simp [hsplit], ?_, hurl,
          r1, r2, r3, r4, r5, r6, r7, ?_⟩
        · intro g' hg'
          cases hg' with
          | head => exact hf
          | tail _ hmem => exact hpre g' hmem
        · simp [toggleActive, hf, r8]
  · intro validUrl store url hne hvu hnone
    have hc : ¬ (url = "" ∨ validUrl url = false) := by
      rintro (h | h)
      · exact hne h
      · rw [hvu] at h
        cases h
    simp [toggleRoute, hc, hnone]

end MomoXRSS
